import Mathlib

/-!
Verification of the voice-cloning service (src/app.py, src/models/voice_cloner.py).

The registry, preprocessing and synthesis logic of `VoiceCloner` and the HTTP
handlers of `app.py` are embedded shallowly.  External library calls
(librosa, torchaudio, soundfile, the Coqui TTS model, the filesystem) are
abstracted as environment records carrying their observable outcomes; all
logic written in the repository itself (dict updates, the duration-clamping
arithmetic, path computation, branch structure, exception fallbacks) is
translated directly.
-/

/-- Provenance-tracking model of the value stored in the metadata field
`created_at`.  The source (voice_cloner.py line 115) stores
`str(uuid.uuid4())`, i.e. a freshly generated opaque identifier; a timestamp
would be the other constructor. -/
inductive Token where
  | uuidToken (v : String) : Token
  | timestampToken (v : String) : Token
deriving DecidableEq, Repr

/-- One metadata entry, as written by `create_voice_embedding`
(voice_cloner.py lines 112-119). -/
structure VoiceProfile where
  reference_path : String
  test_sample_path : String
  created_at : Token
  sample_rate : Nat
  audio_duration : ℚ
  status : String
deriving DecidableEq, Repr

/-- The mutable state of a `VoiceCloner` instance: the `self.voices` dict
(an insertion-ordered association list, as Python dicts are) together with
the set of speaker directories existing on disk under `voice_embeddings/`. -/
structure ClonerState where
  voices : List (String × VoiceProfile)
  dirs : List String
deriving DecidableEq, Repr

/-- Python dict lookup `d[k]` / membership test, on the ordered association
list representing `self.voices`. -/
def dictLookup (k : String) : List (String × VoiceProfile) → Option VoiceProfile
  | [] => none
  | p :: rest => if p.1 = k then some p.2 else dictLookup k rest

/-- Python dict assignment `d[k] = v`: updates the value in place when the
key is present (keeping its position), otherwise appends the new binding at
the end, as in `self.voices[speaker_name] = ...` (line 112). -/
def dictInsert (k : String) (v : VoiceProfile) (d : List (String × VoiceProfile)) :
    List (String × VoiceProfile) :=
  if (dictLookup k d).isSome then
    d.map (fun p => if p.1 = k then (k, v) else p)
  else d ++ [(k, v)]

/-- Python `del d[k]` (line 194).  Under the dict invariant (no duplicate
keys) removing every binding of `k` coincides with removing the single one. -/
def dictRemove (k : String) (d : List (String × VoiceProfile)) :
    List (String × VoiceProfile) :=
  d.filter (fun p => decide (p.1 ≠ k))

/-- Effect of `voice_dir.mkdir(exist_ok=True)` (line 84) on the set of
speaker directories. -/
def insertDir (name : String) (dirs : List String) : List String :=
  if name ∈ dirs then dirs else dirs ++ [name]

/-- Source `VoiceCloner.has_speaker` (lines 170-171):
`speaker_name in self.voices`. -/
def has_speaker (s : ClonerState) (speaker_name : String) : Bool :=
  (dictLookup speaker_name s.voices).isSome

/-- Source `VoiceCloner.list_speakers` (lines 173-174):
`list(self.voices.keys())`, i.e. the keys in insertion order. -/
def list_speakers (s : ClonerState) : List String :=
  s.voices.map Prod.fst

/-- First `if` of the duration-clamping stage of `preprocess_audio`
(voice_cloner.py lines 68-69), on the signal (a list of samples) after
trimming, normalisation and resampling.  `np.tile(audio,
int(np.ceil(min_length / len(audio))))[:min_length]` is the
ceiling-division tiling followed by a prefix cut; the zero-length division
error is modelled at the call site in `preprocess_audio`. -/
def padToMin (min_length : Nat) (audio : List ℚ) : List ℚ :=
  if audio.length < min_length then
    ((List.replicate ((min_length + audio.length - 1) / audio.length) audio).join).take min_length
  else audio

/-- Second `if` of the clamping stage (lines 70-71): truncation to the
maximum length. -/
def truncToMax (max_length : Nat) (audio : List ℚ) : List ℚ :=
  if audio.length > max_length then audio.take max_length else audio

/-- The full duration-clamping stage, `min_length = target_sr * 3` and
`max_length = target_sr * 30` (lines 65-66). -/
def clampDuration (target_sr : Nat) (audio : List ℚ) : List ℚ :=
  truncToMax (target_sr * 30) (padToMin (target_sr * 3) audio)

/-- Python `audio_path.replace(".", "_processed.")` (line 73) on the
character list of the path: every occurrence of a dot is replaced by the
eleven characters of `_processed.`. -/
def replaceDotList : List Char → List Char
  | [] => []
  | c :: cs =>
    if c = '.' then "_processed.".toList ++ replaceDotList cs
    else c :: replaceDotList cs

/-- The output path computed at line 73:
`processed_path = audio_path.replace(".", "_processed.")`. -/
def processed_path (audio_path : String) : String :=
  ⟨replaceDotList audio_path.data⟩

/-- Number of dots in a path, used to compare the processed path with the
original. -/
def countDots : List Char → Nat
  | [] => 0
  | c :: cs => (if c = '.' then 1 else 0) + countDots cs

/-- Observable outcome of the external librosa calls at the start of
`preprocess_audio` (lines 58-63): loading may raise, trimming or
normalising may raise, or a signal emerges (already trimmed, normalised and
resampled) and reaches the duration-clamping stage. -/
inductive PrepOutcome where
  | loadFails : PrepOutcome
  | trimNormalizeFails : PrepOutcome
  | proceeds (audio : List ℚ) : PrepOutcome
deriving DecidableEq, Repr

/-- Environment for one run of `preprocess_audio`: the librosa outcome and
whether the final `sf.write` (line 74) succeeds. -/
structure PreprocessEnv where
  outcome : PrepOutcome
  writeOk : Bool
deriving DecidableEq, Repr

/-- Result of one run of `preprocess_audio`: the returned path, and the
path and samples the function wrote to disk (`sf.write`, line 74), if any. -/
structure PrepResult where
  returnedPath : String
  written : Option (String × List ℚ)
deriving DecidableEq, Repr

/-- Source `VoiceCloner.preprocess_audio` (lines 56-78).  The whole body is
wrapped in try/except returning the original `audio_path` on any failure.
An empty signal entering the clamping stage raises ZeroDivisionError inside
`np.ceil(min_length / len(audio))` (only evaluated when the length is below
`min_length`), which the except clause also converts into returning the
original path. -/
def preprocess_audio (env : PreprocessEnv) (audio_path : String)
    (target_sr : Nat) : PrepResult :=
  match env.outcome with
  | .loadFails => ⟨audio_path, none⟩
  | .trimNormalizeFails => ⟨audio_path, none⟩
  | .proceeds audio =>
    if audio.length = 0 ∧ audio.length < target_sr * 3 then ⟨audio_path, none⟩
    else if env.writeOk then
      ⟨processed_path audio_path,
       some (processed_path audio_path, clampDuration target_sr audio)⟩
    else ⟨audio_path, none⟩

/-- True exactly when some step inside the try-block of `preprocess_audio`
raises, so that the except clause (lines 76-78) returns the original path. -/
def prepRaises (env : PreprocessEnv) (target_sr : Nat) : Bool :=
  match env.outcome with
  | .loadFails => true
  | .trimNormalizeFails => true
  | .proceeds audio =>
    (decide (audio.length = 0 ∧ audio.length < target_sr * 3)) || !env.writeOk

/-- Environment for one run of `create_voice_embedding`: the preprocessing
environment, the outcomes of `torchaudio.load` (line 87) and of the
validation `tts_to_file` call (lines 101-110), the value of
`str(uuid.uuid4())` at line 115, and the duration
`waveform.shape[1] / 22050` of the canonicalised waveform (line 117). -/
structure CreateEnv where
  prep : PreprocessEnv
  loadOk : Bool
  ttsOk : Bool
  freshUuid : String
  duration : ℚ
deriving DecidableEq, Repr

/-- The metadata entry written at lines 112-119 for a given speaker. -/
def profileOf (env : CreateEnv) (speaker_name : String) : VoiceProfile :=
  { reference_path := "voice_embeddings/" ++ speaker_name ++ "/reference.wav"
  , test_sample_path := "voice_embeddings/" ++ speaker_name ++ "/test_sample.wav"
  , created_at := Token.uuidToken env.freshUuid
  , sample_rate := 22050
  , audio_duration := env.duration
  , status := "active" }

/-- Source `VoiceCloner.create_voice_embedding` (lines 80-129): preprocess
the upload, create the speaker directory, load and canonicalise the
waveform, run one validation synthesis, then write the metadata entry and
return `True`; any exception is caught and `False` is returned (lines
127-129), with the directory already created.  Mono-mixing, resampling and
`torchaudio.save` only affect file contents and are abstracted into the
environment. -/
def create_voice_embedding (env : CreateEnv) (audio_path speaker_name : String)
    (s : ClonerState) : Bool × ClonerState :=
  let processed_audio_path := (preprocess_audio env.prep audio_path 22050).returnedPath
  let s1 : ClonerState := { s with dirs := insertDir speaker_name s.dirs }
  if !env.loadOk then (false, s1)
  else if !env.ttsOk then (false, s1)
  else
    (true, { s1 with voices := dictInsert speaker_name (profileOf env speaker_name) s1.voices })

/-- Source `VoiceCloner.delete_speaker` (lines 186-200): unknown names
return `False` at once; otherwise `shutil.rmtree` removes the directory,
the dict entry is deleted and the index saved, returning `True`; a
filesystem exception is caught and `False` returned (lines 198-200).
`fsOk` is the outcome of `rmtree`; on failure the dict is untouched
(the `del` is never reached). -/
def delete_speaker (fsOk : Bool) (speaker_name : String) (s : ClonerState) :
    Bool × ClonerState :=
  if (dictLookup speaker_name s.voices).isSome then
    if fsOk then
      (true, { voices := dictRemove speaker_name s.voices
             , dirs := s.dirs.filter (fun d => decide (d ≠ speaker_name)) })
    else (false, s)
  else (false, s)

/-- Registry states reachable from a fresh empty registry by the mutating
operations of `VoiceCloner`. -/
inductive ReachableState : ClonerState → Prop where
  | init : ReachableState { voices := [], dirs := [] }
  | create (env : CreateEnv) (audio_path speaker_name : String) (s : ClonerState) :
      ReachableState s →
      ReachableState (create_voice_embedding env audio_path speaker_name s).2
  | delete (fsOk : Bool) (speaker_name : String) (s : ClonerState) :
      ReachableState s →
      ReachableState (delete_speaker fsOk speaker_name s).2

/-- Environment for one run of `synthesize`: the outcome of the model call
`tts_to_file` (lines 142-151), the sample count of the generated audio,
the `uuid4().hex[:8]` fragment of the output file name (line 136), and
whether the `sf.write` inside `_adjust_speed` succeeds (line 166). -/
structure SynthEnv where
  ttsOk : Bool
  generatedLen : Nat
  outputId : String
  stretchOk : Bool
deriving DecidableEq, Repr

/-- Output duration of `librosa.effects.time_stretch(audio, rate=speed)`
(line 165): stretching by rate `r` maps a signal of `n` samples to one of
about `n / r` samples; it is modelled as the ceiling of that quotient. -/
def time_stretch (n : Nat) (rate : ℚ) : Nat :=
  (⌈(n : ℚ) / rate⌉).toNat

/-- Source `VoiceCloner._adjust_speed` (lines 162-168): time-stretches the
file in place; any exception is caught and only logged, leaving the file
unchanged. -/
def _adjust_speed (env : SynthEnv) (audioLen : Nat) (speed : ℚ) : Nat :=
  if env.stretchOk then time_stretch audioLen speed else audioLen

/-- Source `VoiceCloner.synthesize` (lines 131-160): unknown speakers raise
ValueError; otherwise the model writes the output file, `_adjust_speed` is
applied exactly when `speed != 1.0`, and the output path is returned.  The
result carries the output path and the sample count of the file at that
path when the call returns. -/
def synthesize (env : SynthEnv) (text speaker_name language : String)
    (speed : ℚ) (s : ClonerState) : Except String (String × Nat) :=
  if !(has_speaker s speaker_name) then
    .error ("Speaker " ++ speaker_name ++ " not found")
  else
    let output_path := "outputs/output_" ++ speaker_name ++ "_" ++ env.outputId ++ ".wav"
    if !env.ttsOk then .error "tts_to_file failed"
    else
      let finalLen :=
        if speed ≠ (1 : ℚ) then _adjust_speed env env.generatedLen speed
        else env.generatedLen
      .ok (output_path, finalLen)

/-- Detail payload of an HTTPException raised by the handlers in app.py. -/
inductive ErrorDetail where
  | notAudioFormat : ErrorDetail
  | speakerExists (speaker : String) : ErrorDetail
  | fileTooLarge : ErrorDetail
  | cloningFailed : ErrorDetail
  | speakerNotFound (speaker : String) (available : List String) : ErrorDetail
  | textEmpty : ErrorDetail
  | synthesisFailed (msg : String) : ErrorDetail
deriving DecidableEq, Repr

/-- Response of the `POST /clone-voice` handler. -/
inductive CloneResponse where
  | success (speaker_id : String) : CloneResponse
  | httpError (status : Nat) (detail : ErrorDetail) : CloneResponse
deriving DecidableEq, Repr

/-- One `POST /clone-voice` request (app.py lines 93-99): upload
content-type class, upload size in bytes, speaker name and overwrite flag. -/
structure CloneRequest where
  contentTypeIsAudio : Bool
  contentSize : Nat
  speaker_name : String
  overwrite : Bool
deriving DecidableEq, Repr

/-- Source handler `clone_voice` (app.py lines 93-160), after the cloner is
initialised: 400 for non-audio content type (line 105), 409 for an existing
name without overwrite (line 109), 413 above 50 MB (line 118), then
`create_voice_embedding` decides between 200 and 500. -/
def clone_voice (env : CreateEnv) (req : CloneRequest) (s : ClonerState) :
    CloneResponse × ClonerState :=
  if !req.contentTypeIsAudio then (.httpError 400 .notAudioFormat, s)
  else if has_speaker s req.speaker_name && !req.overwrite then
    (.httpError 409 (.speakerExists req.speaker_name), s)
  else if req.contentSize > 50 * 1024 * 1024 then (.httpError 413 .fileTooLarge, s)
  else
    match create_voice_embedding env ("uploads/upload" ++ req.speaker_name ++ ".wav")
        req.speaker_name s with
    | (true, s2) => (.success req.speaker_name, s2)
    | (false, s2) => (.httpError 500 .cloningFailed, s2)

/-- Response of the `POST /synthesize` handler. -/
inductive SynthResponse where
  | fileResponse (path : String) (sampleCount : Nat) : SynthResponse
  | httpError (status : Nat) (detail : ErrorDetail) : SynthResponse
deriving DecidableEq, Repr

/-- Source handler `synthesize_speech` (app.py lines 163-207), after the
cloner is initialised: 404 with the list of available speakers embedded in
the detail for unknown names (lines 175-180), 400 for blank text (line
182), then the model call decides between a file response and 500.  The
boolean records whether model inference was invoked at all. -/
def synthesize_speech (env : SynthEnv) (text speaker_name language : String)
    (speed : ℚ) (s : ClonerState) : SynthResponse × Bool :=
  if !(has_speaker s speaker_name) then
    (.httpError 404 (.speakerNotFound speaker_name (list_speakers s)), false)
  else if text.trim.length = 0 then (.httpError 400 .textEmpty, false)
  else
    match synthesize env text speaker_name language speed s with
    | .ok (p, n) => (.fileResponse p n, true)
    | .error msg => (.httpError 500 (.synthesisFailed msg), true)

/-- Length of a tiled signal: `np.tile(audio, n)` has `n` times the length
of `audio`. -/
lemma length_join_replicate (n : Nat) (l : List ℚ) :
    ((List.replicate n l).join).length = n * l.length := by
  induction n with
  | zero => simp
  | succ k ih =>
    simp [List.replicate_succ, ih, Nat.succ_mul, Nat.add_comm]

/-- Ceiling-division tiling reaches the requested minimum length. -/
lemma min_le_ceilDiv_mul (m L : Nat) (hL : 0 < L) :
    m ≤ ((m + L - 1) / L) * L := by
  have hdm : L * ((m + L - 1) / L) + (m + L - 1) % L = m + L - 1 :=
    Nat.div_add_mod _ _
  have hr : (m + L - 1) % L < L := Nat.mod_lt _ hL
  have : m ≤ L * ((m + L - 1) / L) := by omega
  rw [Nat.mul_comm]
  exact this

/-- Padding a too-short nonempty signal yields exactly the minimum length. -/
lemma padToMin_length_of_lt (min_length : Nat) (audio : List ℚ)
    (hlen : 0 < audio.length) (h : audio.length < min_length) :
    (padToMin min_length audio).length = min_length := by
  unfold padToMin
  rw [if_pos h, List.length_take, length_join_replicate]
  exact Nat.min_eq_left (min_le_ceilDiv_mul _ _ hlen)

/-- A signal at or above the minimum length passes the padding stage
unchanged. -/
lemma padToMin_of_ge (min_length : Nat) (audio : List ℚ)
    (h : ¬ audio.length < min_length) :
    padToMin min_length audio = audio := by
  unfold padToMin
  rw [if_neg h]

/-- Claim C2: every nonempty signal entering the duration-clamping stage is
padded by tiling to at least `target_sr * 3` samples when shorter, is
truncated to at most `target_sr * 30` samples when longer, and passes
through unchanged when its length is exactly `target_sr * 3` or exactly
`target_sr * 30`. -/
theorem clamp_duration_window (target_sr : Nat) (audio : List ℚ)
    (hne : audio ≠ []) :
    (audio.length < target_sr * 3 →
      target_sr * 3 ≤ (clampDuration target_sr audio).length) ∧
    (audio.length > target_sr * 30 →
      (clampDuration target_sr audio).length ≤ target_sr * 30) ∧
    (audio.length = target_sr * 3 → clampDuration target_sr audio = audio) ∧
    (audio.length = target_sr * 30 → clampDuration target_sr audio = audio) := by
  have hlen : 0 < audio.length := List.length_pos.mpr hne
  have hmM : target_sr * 3 ≤ target_sr * 30 :=
    Nat.mul_le_mul_left _ (by norm_num)
  refine ⟨?_, ?_, ?_, ?_⟩
  · intro h
    have hpad := padToMin_length_of_lt (target_sr * 3) audio hlen h
    unfold clampDuration truncToMax
    rw [if_neg (by omega)]
    omega
  · intro h
    have hpad := padToMin_of_ge (target_sr * 3) audio (by omega)
    unfold clampDuration truncToMax
    rw [hpad, if_pos h, List.length_take]
    omega
  · intro h
    have hpad := padToMin_of_ge (target_sr * 3) audio (by omega)
    unfold clampDuration truncToMax
    rw [hpad, if_neg (by omega)]
  · intro h
    have hpad := padToMin_of_ge (target_sr * 3) audio (by omega)
    unfold clampDuration truncToMax
    rw [hpad, if_neg (by omega)]

/-- Witness for C2 at the concrete two-sample signal. -/
theorem clamp_duration_window_witness :
    (([1, 2] : List ℚ).length < 22050 * 3 →
      22050 * 3 ≤ (clampDuration 22050 [1, 2]).length) ∧
    (([1, 2] : List ℚ).length > 22050 * 30 →
      (clampDuration 22050 [1, 2]).length ≤ 22050 * 30) ∧
    (([1, 2] : List ℚ).length = 22050 * 3 → clampDuration 22050 [1, 2] = [1, 2]) ∧
    (([1, 2] : List ℚ).length = 22050 * 30 → clampDuration 22050 [1, 2] = [1, 2]) :=
  clamp_duration_window 22050 [1, 2] (by simp)

/-- Claim C3: `preprocess_audio` is total on every environment and path: it
returns either the original path or the processed path, and whenever any
step of its body raises, the except clause returns the original path with
no file written. -/
theorem preprocess_failure_returns_original (env : PreprocessEnv)
    (audio_path : String) (target_sr : Nat) :
    ((preprocess_audio env audio_path target_sr).returnedPath = audio_path ∨
      (preprocess_audio env audio_path target_sr).returnedPath
        = processed_path audio_path) ∧
    (prepRaises env target_sr = true →
      preprocess_audio env audio_path target_sr = ⟨audio_path, none⟩) := by
  obtain ⟨outcome, writeOk⟩ := env
  cases outcome with
  | loadFails => exact ⟨Or.inl rfl, fun _ => rfl⟩
  | trimNormalizeFails => exact ⟨Or.inl rfl, fun _ => rfl⟩
  | proceeds audio =>
    cases writeOk with
    | false =>
      have hpp : preprocess_audio ⟨PrepOutcome.proceeds audio, false⟩ audio_path target_sr
          = if audio.length = 0 ∧ audio.length < target_sr * 3 then
              (⟨audio_path, none⟩ : PrepResult)
            else ⟨audio_path, none⟩ := rfl
      rw [hpp]
      by_cases h0 : audio.length = 0 ∧ audio.length < target_sr * 3
      · rw [if_pos h0]
        exact ⟨Or.inl rfl, fun _ => rfl⟩
      · rw [if_neg h0]
        exact ⟨Or.inl rfl, fun _ => rfl⟩
    | true =>
      have hpp : preprocess_audio ⟨PrepOutcome.proceeds audio, true⟩ audio_path target_sr
          = if audio.length = 0 ∧ audio.length < target_sr * 3 then
              (⟨audio_path, none⟩ : PrepResult)
            else ⟨processed_path audio_path,
                  some (processed_path audio_path, clampDuration target_sr audio)⟩ := rfl
      rw [hpp]
      by_cases h0 : audio.length = 0 ∧ audio.length < target_sr * 3
      · rw [if_pos h0]
        exact ⟨Or.inl rfl, fun _ => rfl⟩
      · rw [if_neg h0]
        refine ⟨Or.inr rfl, fun h => absurd ?_ h0⟩
        have h' : (decide (audio.length = 0 ∧ audio.length < target_sr * 3)
            || !(true : Bool)) = true := h
        rw [Bool.not_true, Bool.or_false] at h'
        exact of_decide_eq_true h'

/-- Witness for C3: a load failure on a concrete path returns the original
path and writes nothing. -/
theorem preprocess_failure_returns_original_witness :
    preprocess_audio ⟨PrepOutcome.loadFails, true⟩ "a.wav" 22050
      = ⟨"a.wav", none⟩ :=
  (preprocess_failure_returns_original ⟨PrepOutcome.loadFails, true⟩
    "a.wav" 22050).2 rfl

/-- A dict lookup succeeds exactly when the key occurs among the keys. -/
lemma dictLookup_isSome_iff (k : String) (d : List (String × VoiceProfile)) :
    (dictLookup k d).isSome = true ↔ k ∈ d.map Prod.fst := by
  induction d with
  | nil => simp [dictLookup]
  | cons p rest ih =>
    by_cases h : p.1 = k
    · simp [dictLookup, h]
    · rw [List.map_cons, List.mem_cons]
      unfold dictLookup
      rw [if_neg h, ih]
      constructor
      · exact Or.inr
      · rintro (h1 | h1)
        · exact absurd h1.symm h
        · exact h1

/-- Updating a present key in place yields the new value on lookup. -/
lemma dictLookup_map_update (k : String) (v : VoiceProfile)
    (d : List (String × VoiceProfile)) (hs : (dictLookup k d).isSome = true) :
    dictLookup k (d.map (fun p => if p.1 = k then (k, v) else p)) = some v := by
  induction d with
  | nil => simp [dictLookup] at hs
  | cons p rest ih =>
    by_cases h : p.1 = k
    · simp [dictLookup, h]
    · rw [List.map_cons, if_neg h]
      unfold dictLookup
      rw [if_neg h]
      unfold dictLookup at hs
      rw [if_neg h] at hs
      exact ih hs

/-- Appending a fresh binding yields the new value on lookup. -/
lemma dictLookup_append_of_none (k : String) (v : VoiceProfile)
    (d : List (String × VoiceProfile)) (hs : (dictLookup k d).isSome = false) :
    dictLookup k (d ++ [(k, v)]) = some v := by
  induction d with
  | nil => simp [dictLookup]
  | cons p rest ih =>
    by_cases h : p.1 = k
    · unfold dictLookup at hs
      rw [if_pos h] at hs
      simp at hs
    · rw [List.cons_append]
      unfold dictLookup
      rw [if_neg h]
      unfold dictLookup at hs
      rw [if_neg h] at hs
      exact ih hs

/-- Python dict assignment makes the assigned value the stored one. -/
lemma dictLookup_dictInsert_self (k : String) (v : VoiceProfile)
    (d : List (String × VoiceProfile)) :
    dictLookup k (dictInsert k v d) = some v := by
  unfold dictInsert
  cases hs : (dictLookup k d).isSome with
  | true =>
    rw [if_pos rfl]
    exact dictLookup_map_update k v d hs
  | false =>
    rw [if_neg Bool.false_ne_true]
    exact dictLookup_append_of_none k v d hs

/-- Updating a key in place does not change the key sequence. -/
lemma map_fst_update (k : String) (v : VoiceProfile)
    (d : List (String × VoiceProfile)) :
    (d.map (fun p => if p.1 = k then (k, v) else p)).map Prod.fst
      = d.map Prod.fst := by
  induction d with
  | nil => simp
  | cons p rest ih =>
    by_cases h : p.1 = k
    · simp [h, ih]
    · simp [h, ih]

/-- Key sequence after a dict assignment on a present key. -/
lemma map_fst_dictInsert_of_mem (k : String) (v : VoiceProfile)
    (d : List (String × VoiceProfile)) (h : k ∈ d.map Prod.fst) :
    (dictInsert k v d).map Prod.fst = d.map Prod.fst := by
  unfold dictInsert
  rw [if_pos ((dictLookup_isSome_iff k d).mpr h)]
  exact map_fst_update k v d

/-- Key sequence after a dict assignment on a fresh key. -/
lemma map_fst_dictInsert_of_not_mem (k : String) (v : VoiceProfile)
    (d : List (String × VoiceProfile)) (h : k ∉ d.map Prod.fst) :
    (dictInsert k v d).map Prod.fst = d.map Prod.fst ++ [k] := by
  unfold dictInsert
  rw [if_neg (fun hs => h ((dictLookup_isSome_iff k d).mp hs))]
  simp

/-- Claim C1: a name absent from the registry is reported absent by
`has_speaker`, and after a successful `create_voice_embedding` the name is
reported present and appears exactly once in `list_speakers`. -/
theorem registry_has_after_create (s : ClonerState) (speaker_name : String)
    (env : CreateEnv) (audio_path : String)
    (hinv : (list_speakers s).Nodup) :
    (speaker_name ∉ list_speakers s → has_speaker s speaker_name = false) ∧
    (∀ s2 : ClonerState,
      create_voice_embedding env audio_path speaker_name s = (true, s2) →
      has_speaker s2 speaker_name = true ∧
      (list_speakers s2).count speaker_name = 1) := by
  constructor
  · intro hmem
    cases hs : has_speaker s speaker_name with
    | false => rfl
    | true =>
      exact absurd ((dictLookup_isSome_iff speaker_name s.voices).mp hs) hmem
  · intro s2 heq
    unfold create_voice_embedding at heq
    cases hl : env.loadOk with
    | false => rw [hl] at heq; simp at heq
    | true =>
      cases ht : env.ttsOk with
      | false => rw [hl, ht] at heq; simp at heq
      | true =>
        rw [hl, ht] at heq
        simp only [Bool.not_true, Bool.false_eq_true, if_false, Prod.mk.injEq,
          true_and] at heq
        subst heq
        constructor
        · unfold has_speaker
          simp only
          rw [dictLookup_dictInsert_self]
          rfl
        · unfold list_speakers
          simp only
          by_cases hm : speaker_name ∈ s.voices.map Prod.fst
          · rw [map_fst_dictInsert_of_mem _ _ _ hm]
            exact List.count_eq_one_of_mem hinv hm
          · rw [map_fst_dictInsert_of_not_mem _ _ _ hm]
            rw [List.count_append]
            rw [List.count_eq_zero.mpr hm]
            simp

/-- Witness for C1: creating a speaker in the empty registry. -/
theorem registry_has_after_create_witness :
    ("bob" ∉ list_speakers ⟨[], []⟩ →
      has_speaker ⟨[], []⟩ "bob" = false) ∧
    (∀ s2 : ClonerState,
      create_voice_embedding ⟨⟨PrepOutcome.loadFails, true⟩, true, true, "u1", 5⟩
        "a.wav" "bob" ⟨[], []⟩ = (true, s2) →
      has_speaker s2 "bob" = true ∧
      (list_speakers s2).count "bob" = 1) :=
  registry_has_after_create ⟨[], []⟩ "bob"
    ⟨⟨PrepOutcome.loadFails, true⟩, true, true, "u1", 5⟩ "a.wav" (by simp [list_speakers])

/-- After removing a key from the dict, looking it up fails. -/
lemma dictLookup_dictRemove_self (k : String) (d : List (String × VoiceProfile)) :
    dictLookup k (dictRemove k d) = none := by
  induction d with
  | nil => rfl
  | cons p rest ih =>
    unfold dictRemove at ih ⊢
    rw [List.filter_cons]
    by_cases h : p.1 = k
    · rw [if_neg (by simp [h])]
      exact ih
    · rw [if_pos (by simp [h])]
      unfold dictLookup
      rw [if_neg h]
      exact ih

/-- Claim C4: deleting an unknown speaker fails and leaves the state
unchanged; deleting a known speaker with a healthy filesystem succeeds,
after which the speaker is reported absent and its directory is gone; a
filesystem error during deletion is swallowed and reported as failure. -/
theorem delete_speaker_spec (fsOk : Bool) (speaker_name : String)
    (s : ClonerState) :
    (has_speaker s speaker_name = false →
      delete_speaker fsOk speaker_name s = (false, s)) ∧
    (has_speaker s speaker_name = true →
      (delete_speaker true speaker_name s).1 = true ∧
      has_speaker (delete_speaker true speaker_name s).2 speaker_name = false ∧
      speaker_name ∉ (delete_speaker true speaker_name s).2.dirs) ∧
    (has_speaker s speaker_name = true →
      delete_speaker false speaker_name s = (false, s)) := by
  refine ⟨?_, ?_, ?_⟩
  · intro h
    unfold delete_speaker
    rw [if_neg (by rw [show (dictLookup speaker_name s.voices).isSome
        = has_speaker s speaker_name from rfl, h]; exact Bool.false_ne_true)]
  · intro h
    have h' : (dictLookup speaker_name s.voices).isSome = true := h
    have hd : delete_speaker true speaker_name s
        = (true, { voices := dictRemove speaker_name s.voices
                 , dirs := s.dirs.filter (fun d => decide (d ≠ speaker_name)) }) := by
      unfold delete_speaker
      rw [if_pos h', if_pos rfl]
    rw [hd]
    refine ⟨rfl, ?_, ?_⟩
    · unfold has_speaker
      simp only
      rw [dictLookup_dictRemove_self]
      rfl
    · simp [List.mem_filter]
  · intro h
    have h' : (dictLookup speaker_name s.voices).isSome = true := h
    unfold delete_speaker
    rw [if_pos h', if_neg Bool.false_ne_true]

/-- Witness for C4 on a one-speaker registry. -/
theorem delete_speaker_spec_witness :
    (delete_speaker true "alice"
        ⟨[("alice", ⟨"r", "t", Token.uuidToken "u", 22050, 5, "active"⟩)],
         ["alice"]⟩).1 = true ∧
    has_speaker (delete_speaker true "alice"
        ⟨[("alice", ⟨"r", "t", Token.uuidToken "u", 22050, 5, "active"⟩)],
         ["alice"]⟩).2 "alice" = false ∧
    "alice" ∉ (delete_speaker true "alice"
        ⟨[("alice", ⟨"r", "t", Token.uuidToken "u", 22050, 5, "active"⟩)],
         ["alice"]⟩).2.dirs :=
  (delete_speaker_spec true "alice"
    ⟨[("alice", ⟨"r", "t", Token.uuidToken "u", 22050, 5, "active"⟩)],
     ["alice"]⟩).2.1 rfl

/-- Membership in the dict after an assignment: either the fresh binding or
an old one. -/
lemma mem_dictInsert (p : String × VoiceProfile) (k : String)
    (v : VoiceProfile) (d : List (String × VoiceProfile))
    (h : p ∈ dictInsert k v d) : p = (k, v) ∨ p ∈ d := by
  unfold dictInsert at h
  by_cases hs : (dictLookup k d).isSome = true
  · rw [if_pos hs] at h
    obtain ⟨q, hq, hqe⟩ := List.mem_map.mp h
    by_cases hqk : q.1 = k
    · rw [if_pos hqk] at hqe
      exact Or.inl hqe.symm
    · rw [if_neg hqk] at hqe
      exact Or.inr (hqe ▸ hq)
  · rw [if_neg hs] at h
    rcases List.mem_append.mp h with h1 | h1
    · exact Or.inr h1
    · exact Or.inl (List.mem_singleton.mp h1)

/-- Claim C9: in every registry state reachable by the operations, every
stored profile has status `active`, sample rate 22050, and a `created_at`
field holding a freshly generated uuid token rather than a timestamp. -/
theorem profile_metadata_invariant (s : ClonerState) (h : ReachableState s) :
    ∀ entry ∈ s.voices, entry.2.status = "active" ∧
      entry.2.sample_rate = 22050 ∧
      ∃ u, entry.2.created_at = Token.uuidToken u := by
  induction h with
  | init => intro e he; simp at he
  | create env audio_path speaker_name s hs ih =>
    intro e he
    unfold create_voice_embedding at he
    cases hl : env.loadOk with
    | false =>
      rw [hl] at he
      exact ih e he
    | true =>
      cases ht : env.ttsOk with
      | false =>
        rw [hl, ht] at he
        exact ih e he
      | true =>
        rw [hl, ht] at he
        simp only [Bool.not_true, Bool.false_eq_true, if_false] at he
        rcases mem_dictInsert e speaker_name (profileOf env speaker_name)
            s.voices he with h1 | h1
        · subst h1
          exact ⟨rfl, rfl, env.freshUuid, rfl⟩
        · exact ih e h1
  | delete fsOk speaker_name s hs ih =>
    intro e he
    unfold delete_speaker at he
    by_cases hl : (dictLookup speaker_name s.voices).isSome = true
    · rw [if_pos hl] at he
      cases fsOk with
      | false => exact ih e he
      | true =>
        rw [if_pos rfl] at he
        exact ih e (List.mem_of_mem_filter he)
    · rw [if_neg hl] at he
      exact ih e he

/-- Witness for C9: the single entry of the state reached by one
successful create from the empty registry. -/
theorem profile_metadata_invariant_witness :
    (("alice", profileOf ⟨⟨PrepOutcome.loadFails, true⟩, true, true, "u1", 5⟩
        "alice") : String × VoiceProfile).2.status = "active" ∧
    (("alice", profileOf ⟨⟨PrepOutcome.loadFails, true⟩, true, true, "u1", 5⟩
        "alice") : String × VoiceProfile).2.sample_rate = 22050 ∧
    ∃ u, (("alice", profileOf ⟨⟨PrepOutcome.loadFails, true⟩, true, true, "u1", 5⟩
        "alice") : String × VoiceProfile).2.created_at = Token.uuidToken u :=
  profile_metadata_invariant
    (create_voice_embedding ⟨⟨PrepOutcome.loadFails, true⟩, true, true, "u1", 5⟩
      "a.wav" "alice" ⟨[], []⟩).2
    (ReachableState.create ⟨⟨PrepOutcome.loadFails, true⟩, true, true, "u1", 5⟩
      "a.wav" "alice" ⟨[], []⟩ ReachableState.init)
    ("alice", profileOf ⟨⟨PrepOutcome.loadFails, true⟩, true, true, "u1", 5⟩ "alice")
    (by decide)

/-- Claim C6: a synthesize request for an unknown speaker yields HTTP 404
with the list of registered speakers embedded in the error detail, and no
model inference is performed. -/
theorem synthesize_unknown_speaker_404 (env : SynthEnv)
    (text speaker_name language : String) (speed : ℚ) (s : ClonerState)
    (h : has_speaker s speaker_name = false) :
    synthesize_speech env text speaker_name language speed s =
      (.httpError 404 (.speakerNotFound speaker_name (list_speakers s)), false) := by
  unfold synthesize_speech
  rw [h]
  rfl

/-- Witness for C6 on a registry holding only `alice`. -/
theorem synthesize_unknown_speaker_404_witness :
    synthesize_speech ⟨true, 100, "abc", true⟩ "hello" "bob" "en" 1
      ⟨[("alice", ⟨"r", "t", Token.uuidToken "u", 22050, 5, "active"⟩)], ["alice"]⟩ =
    (.httpError 404 (.speakerNotFound "bob" ["alice"]), false) :=
  synthesize_unknown_speaker_404 ⟨true, 100, "abc", true⟩ "hello" "bob" "en" 1
    ⟨[("alice", ⟨"r", "t", Token.uuidToken "u", 22050, 5, "active"⟩)], ["alice"]⟩ rfl

/-- Stretching at rate 2 halves the sample count up to rounding. -/
lemma time_stretch_two (g : Nat) :
    g ≤ 2 * time_stretch g 2 ∧ 2 * time_stretch g 2 ≤ g + 1 := by
  unfold time_stretch
  have h0 : (0 : ℚ) ≤ (g : ℚ) / 2 := by positivity
  have hc0 : 0 ≤ ⌈(g : ℚ) / 2⌉ := Int.ceil_nonneg h0
  have h1 : (g : ℚ) / 2 ≤ (⌈(g : ℚ) / 2⌉ : ℚ) := Int.le_ceil _
  have h2 : ((⌈(g : ℚ) / 2⌉ : ℤ) : ℚ) < (g : ℚ) / 2 + 1 := Int.ceil_lt_add_one _
  have hg1 : (g : ℚ) ≤ 2 * (⌈(g : ℚ) / 2⌉ : ℚ) := by linarith
  have hg2 : 2 * ((⌈(g : ℚ) / 2⌉ : ℤ) : ℚ) < (g : ℚ) + 2 := by linarith
  have hg1i : (g : ℤ) ≤ 2 * ⌈(g : ℚ) / 2⌉ := by exact_mod_cast hg1
  have hg2i : 2 * ⌈(g : ℚ) / 2⌉ < (g : ℤ) + 2 := by exact_mod_cast hg2
  have ht : (⌈(g : ℚ) / 2⌉.toNat : ℤ) = ⌈(g : ℚ) / 2⌉ := Int.toNat_of_nonneg hc0
  omega

/-- Stretching at rate one half doubles the sample count exactly. -/
lemma time_stretch_half (g : Nat) : time_stretch g (1 / 2) = 2 * g := by
  unfold time_stretch
  have h : (g : ℚ) / (1 / 2) = ((2 * g : Nat) : ℚ) := by
    push_cast
    ring
  rw [h, Int.ceil_natCast]
  exact Int.toNat_natCast _

/-- Claim C8: a successful synthesis applies the in-place time stretch
exactly when the requested speed differs from one: at speed one the
generated duration is kept, at speed two it is approximately halved, at
speed one half it is exactly doubled, and the output path is the same in
all cases. -/
theorem synthesize_speed_adjustment (env : SynthEnv)
    (text speaker_name language : String) (speed : ℚ) (s : ClonerState)
    (hspk : has_speaker s speaker_name = true)
    (htts : env.ttsOk = true) (hstr : env.stretchOk = true) :
    ∃ n : Nat,
      synthesize env text speaker_name language speed s =
        .ok ("outputs/output_" ++ speaker_name ++ "_" ++ env.outputId ++ ".wav", n) ∧
      (speed = 1 → n = env.generatedLen) ∧
      (speed ≠ 1 → n = time_stretch env.generatedLen speed) ∧
      (speed = 2 → env.generatedLen ≤ 2 * n ∧ 2 * n ≤ env.generatedLen + 1) ∧
      (speed = 1 / 2 → n = 2 * env.generatedLen) := by
  have hsyn : synthesize env text speaker_name language speed s =
      .ok ("outputs/output_" ++ speaker_name ++ "_" ++ env.outputId ++ ".wav",
        if speed ≠ (1 : ℚ) then _adjust_speed env env.generatedLen speed
        else env.generatedLen) := by
    unfold synthesize
    rw [hspk, htts]
    rfl
  refine ⟨if speed ≠ (1 : ℚ) then _adjust_speed env env.generatedLen speed
    else env.generatedLen, hsyn, ?_, ?_, ?_, ?_⟩
  · intro h1
    rw [if_neg (fun hne => hne h1)]
  · intro h1
    rw [if_pos h1]
    unfold _adjust_speed
    rw [hstr, if_pos rfl]
  · intro h2
    subst h2
    rw [if_pos (by norm_num)]
    unfold _adjust_speed
    rw [hstr, if_pos rfl]
    exact time_stretch_two env.generatedLen
  · intro h2
    subst h2
    rw [if_pos (by norm_num)]
    unfold _adjust_speed
    rw [hstr, if_pos rfl]
    exact time_stretch_half env.generatedLen

/-- Witness for C8 at speed two on a one-speaker registry. -/
theorem synthesize_speed_adjustment_witness :
    ∃ n : Nat,
      synthesize ⟨true, 100, "abc", true⟩ "hello" "alice" "en" 2
        ⟨[("alice", ⟨"r", "t", Token.uuidToken "u", 22050, 5, "active"⟩)], ["alice"]⟩ =
        .ok ("outputs/output_" ++ "alice" ++ "_" ++ "abc" ++ ".wav", n) ∧
      ((2 : ℚ) = 1 → n = 100) ∧
      ((2 : ℚ) ≠ 1 → n = time_stretch 100 2) ∧
      ((2 : ℚ) = 2 → 100 ≤ 2 * n ∧ 2 * n ≤ 100 + 1) ∧
      ((2 : ℚ) = 1 / 2 → n = 2 * 100) :=
  synthesize_speed_adjustment ⟨true, 100, "abc", true⟩ "hello" "alice" "en" 2
    ⟨[("alice", ⟨"r", "t", Token.uuidToken "u", 22050, 5, "active"⟩)], ["alice"]⟩
    rfl rfl rfl

/-- Claim C10: when the in-place time stretch fails, the failure is only
logged: `synthesize` still returns the output path successfully, with the
audio left at the original generated duration. -/
theorem stretch_failure_swallowed (env : SynthEnv)
    (text speaker_name language : String) (speed : ℚ) (s : ClonerState)
    (hspk : has_speaker s speaker_name = true) (htts : env.ttsOk = true)
    (hspeed : speed ≠ 1) (hstr : env.stretchOk = false) :
    synthesize env text speaker_name language speed s =
      .ok ("outputs/output_" ++ speaker_name ++ "_" ++ env.outputId ++ ".wav",
           env.generatedLen) := by
  unfold synthesize
  rw [hspk, htts]
  show Except.ok (_, if speed ≠ (1 : ℚ) then _adjust_speed env env.generatedLen speed
    else env.generatedLen) = _
  rw [if_pos hspeed]
  unfold _adjust_speed
  rw [hstr, if_neg Bool.false_ne_true]

/-- Witness for C10 at speed two with a failing stretch step. -/
theorem stretch_failure_swallowed_witness :
    synthesize ⟨true, 100, "abc", false⟩ "hello" "alice" "en" 2
      ⟨[("alice", ⟨"r", "t", Token.uuidToken "u", 22050, 5, "active"⟩)], ["alice"]⟩ =
      .ok ("outputs/output_" ++ "alice" ++ "_" ++ "abc" ++ ".wav", 100) :=
  stretch_failure_swallowed ⟨true, 100, "abc", false⟩ "hello" "alice" "en" 2
    ⟨[("alice", ⟨"r", "t", Token.uuidToken "u", 22050, 5, "active"⟩)], ["alice"]⟩
    rfl rfl (by norm_num) rfl

/-- Counterexample to claim C5 as stated: a clone request naming the
already-registered speaker `alice` without overwrite, but carrying a
non-audio content type, is rejected with HTTP 400 — not with the claimed
conflict signal 409 — because the content-type check at app.py line 105
runs before the name-collision check at line 109. -/
theorem clone_conflict_counterexample :
    has_speaker
      ⟨[("alice", ⟨"r", "t", Token.uuidToken "u", 22050, 5, "active"⟩)], ["alice"]⟩
      "alice" = true ∧
    (⟨false, 0, "alice", false⟩ : CloneRequest).overwrite = false ∧
    clone_voice ⟨⟨PrepOutcome.loadFails, true⟩, true, true, "u2", 5⟩
      ⟨false, 0, "alice", false⟩
      ⟨[("alice", ⟨"r", "t", Token.uuidToken "u", 22050, 5, "active"⟩)], ["alice"]⟩
      = (.httpError 400 .notAudioFormat,
         ⟨[("alice", ⟨"r", "t", Token.uuidToken "u", 22050, 5, "active"⟩)], ["alice"]⟩) ∧
    (CloneResponse.httpError 400 .notAudioFormat
      ≠ CloneResponse.httpError 409 (.speakerExists "alice")) := by
  refine ⟨rfl, rfl, rfl, ?_⟩
  decide

/-- Claim C5 as amended: for clone requests that pass the content-type
check, naming an existing speaker without overwrite fails with HTTP 409
and leaves the whole registry state unmodified; with overwrite requested,
an upload within the size limit whose embedding creation succeeds replaces
the profile: the response is success and the metadata entry now holds the
freshly written profile. -/
theorem clone_conflict_and_overwrite (env : CreateEnv) (req : CloneRequest)
    (s : ClonerState) (hct : req.contentTypeIsAudio = true) :
    (has_speaker s req.speaker_name = true → req.overwrite = false →
      clone_voice env req s
        = (.httpError 409 (.speakerExists req.speaker_name), s)) ∧
    (req.overwrite = true → req.contentSize ≤ 50 * 1024 * 1024 →
      env.loadOk = true → env.ttsOk = true →
      (clone_voice env req s).1 = .success req.speaker_name ∧
      dictLookup req.speaker_name (clone_voice env req s).2.voices
        = some (profileOf env req.speaker_name)) := by
  constructor
  · intro hhas hov
    unfold clone_voice
    rw [hct]
    show (if has_speaker s req.speaker_name && !req.overwrite then _ else _) = _
    rw [hhas, hov]
    rfl
  · intro hov hsize hl ht
    have hcv : clone_voice env req s
        = (CloneResponse.success req.speaker_name,
           { voices := dictInsert req.speaker_name (profileOf env req.speaker_name)
               s.voices
           , dirs := insertDir req.speaker_name s.dirs }) := by
      have hce : create_voice_embedding env
            ("uploads/upload" ++ req.speaker_name ++ ".wav") req.speaker_name s
          = (true,
             { voices := dictInsert req.speaker_name (profileOf env req.speaker_name)
                 s.voices
             , dirs := insertDir req.speaker_name s.dirs }) := by
        unfold create_voice_embedding
        rw [hl, ht, Bool.not_true, if_neg Bool.false_ne_true,
          if_neg Bool.false_ne_true]
      unfold clone_voice
      rw [hct, Bool.not_true, if_neg Bool.false_ne_true]
      rw [hov, Bool.not_true, Bool.and_false, if_neg Bool.false_ne_true]
      rw [if_neg (show ¬ req.contentSize > 50 * 1024 * 1024 by omega)]
      rw [hce]
    rw [hcv]
    exact ⟨rfl, dictLookup_dictInsert_self _ _ _⟩

/-- Witness for the amended C5: the 409 branch on a one-speaker registry. -/
theorem clone_conflict_and_overwrite_witness :
    clone_voice ⟨⟨PrepOutcome.loadFails, true⟩, true, true, "u2", 5⟩
      ⟨true, 0, "alice", false⟩
      ⟨[("alice", ⟨"r", "t", Token.uuidToken "u", 22050, 5, "active"⟩)], ["alice"]⟩
      = (.httpError 409 (.speakerExists "alice"),
         ⟨[("alice", ⟨"r", "t", Token.uuidToken "u", 22050, 5, "active"⟩)], ["alice"]⟩) :=
  (clone_conflict_and_overwrite ⟨⟨PrepOutcome.loadFails, true⟩, true, true, "u2", 5⟩
    ⟨true, 0, "alice", false⟩
    ⟨[("alice", ⟨"r", "t", Token.uuidToken "u", 22050, 5, "active"⟩)], ["alice"]⟩
    rfl).1 rfl rfl

/-- Length of the path after dot replacement: each dot contributes ten
extra characters. -/
lemma replaceDotList_length (l : List Char) :
    (replaceDotList l).length = l.length + 10 * countDots l := by
  induction l with
  | nil => rfl
  | cons c cs ih =>
    unfold replaceDotList countDots
    by_cases h : c = '.'
    · rw [if_pos h, if_pos h, List.length_append, ih, List.length_cons]
      have h11 : ("_processed.".toList).length = 11 := rfl
      rw [h11]
      omega
    · rw [if_neg h, if_neg h, List.length_cons, ih, List.length_cons]
      omega

/-- A list containing a dot has a positive dot count. -/
lemma countDots_pos (l : List Char) (h : '.' ∈ l) : 0 < countDots l := by
  induction l with
  | nil => simp at h
  | cons c cs ih =>
    unfold countDots
    rcases List.mem_cons.mp h with h1 | h1
    · rw [if_pos h1.symm]
      omega
    · have := ih h1
      omega

/-- Counterexample to claim C7 as stated: on the dotless input path
`audiofile`, `audio_path.replace(".", "_processed.")` leaves the path
unchanged, so a successful run of `preprocess_audio` writes its output AT
the input path, overwriting the original file instead of writing a new
file at a distinct path. -/
theorem preprocess_overwrites_dotless_counterexample :
    processed_path "audiofile" = "audiofile" ∧
    (preprocess_audio ⟨PrepOutcome.proceeds [1], true⟩ "audiofile" 22050).written
      = some ("audiofile", clampDuration 22050 [1]) ∧
    (preprocess_audio ⟨PrepOutcome.proceeds [1], true⟩ "audiofile" 22050).returnedPath
      = "audiofile" :=
  ⟨rfl, rfl, rfl⟩

/-- Claim C7 as amended: for every input path containing at least one dot,
a successful `preprocess_audio` writes its output at the processed path,
which differs from the input path, so the original input file is never
mutated; for a dotless path the computed output path coincides with the
input path and the original is overwritten (see the counterexample). -/
theorem preprocess_writes_fresh_file (audio_path : String)
    (env : PreprocessEnv) (target_sr : Nat)
    (hdot : '.' ∈ audio_path.data) :
    processed_path audio_path ≠ audio_path ∧
    (∀ w, (preprocess_audio env audio_path target_sr).written = some w →
      w.1 = processed_path audio_path ∧ w.1 ≠ audio_path) := by
  have hne : processed_path audio_path ≠ audio_path := by
    intro h
    have hd : replaceDotList audio_path.data = audio_path.data :=
      congrArg String.data h
    have hlen := replaceDotList_length audio_path.data
    have hpos := countDots_pos audio_path.data hdot
    rw [hd] at hlen
    omega
  refine ⟨hne, fun w hw => ?_⟩
  obtain ⟨outcome, writeOk⟩ := env
  cases outcome with
  | loadFails => exact absurd hw (by simp [preprocess_audio])
  | trimNormalizeFails => exact absurd hw (by simp [preprocess_audio])
  | proceeds audio =>
    have hpp : preprocess_audio ⟨PrepOutcome.proceeds audio, writeOk⟩ audio_path target_sr
        = if audio.length = 0 ∧ audio.length < target_sr * 3 then
            (⟨audio_path, none⟩ : PrepResult)
          else if writeOk then
            ⟨processed_path audio_path,
             some (processed_path audio_path, clampDuration target_sr audio)⟩
          else ⟨audio_path, none⟩ := by
      cases writeOk with
      | false => rfl
      | true => rfl
    rw [hpp] at hw
    by_cases h0 : audio.length = 0 ∧ audio.length < target_sr * 3
    · rw [if_pos h0] at hw
      simp at hw
    · rw [if_neg h0] at hw
      cases writeOk with
      | false => simp at hw
      | true =>
        rw [if_pos rfl] at hw
        have hw' : (processed_path audio_path, clampDuration target_sr audio) = w :=
          Option.some.inj hw
        rw [← hw']
        exact ⟨rfl, hne⟩

/-- Witness for the amended C7 on a dotted path. -/
theorem preprocess_writes_fresh_file_witness :
    processed_path "a.wav" ≠ "a.wav" ∧
    (∀ w, (preprocess_audio ⟨PrepOutcome.loadFails, true⟩ "a.wav" 22050).written
        = some w →
      w.1 = processed_path "a.wav" ∧ w.1 ≠ "a.wav") :=
  preprocess_writes_fresh_file "a.wav" ⟨PrepOutcome.loadFails, true⟩ 22050 (by decide)
